import Mathlib

/-!
Shallow embedding of the ReportsDAY backend (55SYSTEM).

The embedding covers:
* `API-55PBX/service.js` — call classification, daily KPI aggregation,
  historical means and level classification;
* the scheduler (`executeReport`, `addToHistory`, `getNextRun`);
* the WhatsApp dispatcher (`sendMessage`, `sendRelatorio`, `sendAnaliseHistorica`);
* the file-backed day cache (`addCall`, `hasCache`).

JavaScript numbers that hold call counts are modelled as `Nat`;
`Math.round(a / b)` on non-negative operands is modelled exactly as
`(2*a + b) / (2*b)` in natural division.  Timestamps are `Nat`
milliseconds.  Network and file-system effects are modelled by passing
the outcome of each external interaction as an explicit argument.
-/

namespace ReportsDay

/-! ## JavaScript primitives -/

/-- A JavaScript primitive value, used for duck-typed fields such as
`callData.answered` that may hold a boolean, a number or a string. -/
inductive JSVal where
  | undef : JSVal
  | boolVal (b : Bool) : JSVal
  | numVal (n : Int) : JSVal
  | strVal (s : String) : JSVal
deriving DecidableEq, Repr

/-- JavaScript truthiness of a primitive: `undefined`, `false`, `0` and
the empty string are falsy. -/
def jsTruthy : JSVal → Bool
  | .undef => false
  | .boolVal b => b
  | .numVal n => n != 0
  | .strVal s => s != ""

/-- JavaScript `a || b` on primitives: the first operand if truthy,
otherwise the second. -/
def jsOr (a b : JSVal) : JSVal :=
  if jsTruthy a then a else b

/-- JavaScript `a || b || ''` where `a` and `b` are possibly-absent
string fields: an absent field and the empty string are both falsy. -/
def orElseStr (a b : Option String) : String :=
  match a with
  | some s => if s = "" then (b.getD "") else s
  | none => b.getD ""

/-- Membership test used to model `list.startsWith pattern` at the
character level (pattern is the second argument). -/
def leadMatch : List Char → List Char → Bool
  | _, [] => true
  | [], _ :: _ => false
  | a :: as, b :: bs => a == b && leadMatch as bs

/-- Models JavaScript `haystack.includes(needle)` on strings, at the
character-list level. -/
def hasSubstr : List Char → List Char → Bool
  | [], pat => pat.isEmpty
  | s@(_ :: rest), pat => leadMatch s pat || hasSubstr rest pat

/-- `String.includes` as used by the call classifier. -/
def jsIncludes (s pat : String) : Bool :=
  hasSubstr s.data pat.data

/-- JavaScript `Math.round(a / b)` for non-negative integers `a`, `b`
(`b > 0`): round-half-up of the exact rational `a / b`. -/
def jsRoundDiv (a b : Nat) : Nat :=
  (2 * a + b) / (2 * b)

/-- Splits a character list on `':'`, modelling `str.split(':')`. -/
def splitColonAux : List Char → List Char → List (List Char)
  | [], acc => [acc.reverse]
  | c :: rest, acc =>
    if c == ':' then acc.reverse :: splitColonAux rest []
    else splitColonAux rest (c :: acc)

/-- Numeric value of a digit string, modelling `Number("…")` /
`parseInt` on well-formed decimal digit strings. -/
def digitsVal (cs : List Char) : Nat :=
  cs.foldl (fun a c => 10 * a + (c.toNat - 48)) 0

/-! ## API-55PBX: call classification (`classifyCallStatus`) -/

/-- One raw call record as delivered by the upstream provider.  Textual
fields that may be absent are `Option String`; the duck-typed
answered flags are `JSVal`.  `call_date_hour` stands for the hour
extracted from `new Date(call.call_date || call.date || call.data)`,
`none` when no valid date is available. -/
structure CallData where
  call_status : Option String := none
  status : Option String := none
  call_queue : Option String := none
  queue : Option String := none
  answered : JSVal := .undef
  atendida : JSVal := .undef
  call_time_waiting : Option Nat := none
  wait_time : Option Nat := none
  tempo_espera : Option Nat := none
  call_date_hour : Option Nat := none
deriving Repr

/-- The four mutually exclusive call categories. -/
inductive CallClass where
  | answered : CallClass
  | abandoned : CallClass
  | retained_ura : CallClass
  | other : CallClass
deriving DecidableEq, Repr

/-- Classification of one call record, from `classifyCallStatus` in
`API-55PBX/service.js`: explicit answered flag first, then textual
status markers, then IVR markers or an empty queue, else `other`. -/
def classifyCallStatus (callData : CallData) : CallClass :=
  let status := (orElseStr callData.call_status callData.status).toUpper
  let queue := orElseStr callData.call_queue callData.queue
  let answered := jsOr callData.answered callData.atendida
  if answered == .boolVal true || answered == .numVal 1 || answered == .strVal "1" then
    .answered
  else if jsIncludes status "ANSWERED" || jsIncludes status "ATENDIDA" then
    .answered
  else if jsIncludes status "ABANDONED" || jsIncludes status "ABANDONADA"
      || jsIncludes status "NO ANSWER" then
    .abandoned
  else if jsIncludes status "URA" || jsIncludes status "IVR" || queue = "" then
    .retained_ura
  else
    .other

/-! ## API-55PBX: daily KPI aggregation (`calculateDayKPIs`) -/

/-- Aggregate response object of the upstream report endpoint; numeric
counter fields model `parseInt(data.x || 0)` results. -/
structure AggData where
  totalCallAttendedReceptive : Option Nat := none
  totalCallAbandonedQueue : Option Nat := none
  totalCallAbandonedURA : Option Nat := none
  timeMediumWaitingAttendance : Option String := none
  sla_attendance : Option String := none
  timeMediumDurationCall : Option String := none
deriving Repr

/-- A daily KPI snapshot.  The `lastUpdate` wall-clock field of the
source is omitted (it is an ambient timestamp that no logic reads). -/
structure KPIs where
  totalCalls : Nat
  answered : Nat
  abandoned : Nat
  retainedURA : Nat
  other : Nat
  peakHour : Option (Nat × Nat)
  avgWaitTime : Nat
  slaAttendance : Option String := none
  timeMediumDuration : Option String := none
  error : Option String := none
deriving Repr

/-- Outcome of `fetchTodayCalls` as seen by `calculateDayKPIs`:
`nullResult` covers a null body, an HTTP error status or a transport
error (the fetch helper maps all of those to `null`); `threwException`
models any exception reaching the outer `catch` of
`calculateDayKPIs`. -/
inductive FetchResult where
  | nullResult : FetchResult
  | aggregate (a : AggData) : FetchResult
  | callList (l : List CallData) : FetchResult
  | threwException (msg : String) : FetchResult

/-- Parses the `"HH:MM:SS"` wait-time string: seconds when it has three
colon-separated parts, otherwise 0. -/
def parseWaitStr (s : String) : Nat :=
  let waitParts := splitColonAux s.data []
  if waitParts.length = 3 then
    digitsVal (waitParts.getD 0 []) * 3600 + digitsVal (waitParts.getD 1 []) * 60
      + digitsVal (waitParts.getD 2 [])
  else 0

/-- JavaScript `a || b` on possibly-absent numeric fields (`0` is
falsy and falls through). -/
def jsOrNat (a : Option Nat) (b : Option Nat) : Option Nat :=
  match a with
  | some n => if n = 0 then b else some n
  | none => b

/-- Accumulator of the per-call loop in the list branch of
`calculateDayKPIs`. -/
structure ListAcc where
  answered : Nat
  abandoned : Nat
  retainedURA : Nat
  other : Nat
  totalWaitTime : Nat
  hourCounts : List (Nat × Nat)
deriving Repr

/-- Insertion-ordered bump of `hourCounts[hour]`, modelling the plain
object used as a counter map. -/
def bumpHour : List (Nat × Nat) → Nat → List (Nat × Nat)
  | [], h => [(h, 1)]
  | (k, v) :: rest, h =>
    if k = h then (k, v + 1) :: rest else (k, v) :: bumpHour rest h

/-- One iteration of `calls.forEach(...)` in `calculateDayKPIs`. -/
def callStep (acc : ListAcc) (call : CallData) : ListAcc :=
  let acc1 :=
    match classifyCallStatus call with
    | .answered => { acc with answered := acc.answered + 1 }
    | .abandoned => { acc with abandoned := acc.abandoned + 1 }
    | .retained_ura => { acc with retainedURA := acc.retainedURA + 1 }
    | .other => { acc with other := acc.other + 1 }
  let waitTime :=
    (jsOrNat call.call_time_waiting (jsOrNat call.wait_time call.tempo_espera)).getD 0
  let acc2 := { acc1 with totalWaitTime := acc1.totalWaitTime + waitTime }
  match call.call_date_hour with
  | some h => { acc2 with hourCounts := bumpHour acc2.hourCounts h }
  | none => acc2

/-- Peak-hour scan over the hour counters: keeps the first hour (in
insertion order) whose count is strictly larger than all previous. -/
def peakScan (entries : List (Nat × Nat)) : Option (Nat × Nat) :=
  entries.foldl
    (fun best e =>
      match best with
      | none => if e.2 > 0 then some e else none
      | some b => if e.2 > b.2 then some e else some b)
    none

/-- The all-zero snapshot returned when the upstream reports no data or
an exception is caught. -/
def zeroSnapshot (err : Option String) : KPIs :=
  { totalCalls := 0, answered := 0, abandoned := 0, retainedURA := 0, other := 0,
    peakHour := none, avgWaitTime := 0, error := err }

/-- `calculateDayKPIs` from `API-55PBX/service.js`, with the outcome of
the upstream fetch passed explicitly.  A null/error/empty response
yields the all-zero snapshot; an aggregate response is read field by
field; a raw call list is classified call by call. -/
def calculateDayKPIs (r : FetchResult) : KPIs :=
  match r with
  | .threwException msg => zeroSnapshot (some msg)
  | .nullResult => zeroSnapshot none
  | .aggregate a =>
    let atendidas := a.totalCallAttendedReceptive.getD 0
    let abandonadas := a.totalCallAbandonedQueue.getD 0
    let retidasURA := a.totalCallAbandonedURA.getD 0
    let totalCalls := atendidas + abandonadas + retidasURA
    let waitTimeStr := a.timeMediumWaitingAttendance.getD "00:00:00"
    { totalCalls := totalCalls, answered := atendidas, abandoned := abandonadas,
      retainedURA := retidasURA, other := 0, peakHour := none,
      avgWaitTime := parseWaitStr waitTimeStr,
      slaAttendance := some (a.sla_attendance.getD "0%"),
      timeMediumDuration := some (a.timeMediumDurationCall.getD "00:00:00") }
  | .callList calls =>
    if calls.isEmpty then zeroSnapshot none
    else
      let acc := calls.foldl callStep
        { answered := 0, abandoned := 0, retainedURA := 0, other := 0,
          totalWaitTime := 0, hourCounts := [] }
      let peakHour := peakScan acc.hourCounts
      let avgWaitTime :=
        if calls.length > 0 then jsRoundDiv acc.totalWaitTime calls.length else 0
      { totalCalls := calls.length, answered := acc.answered,
        abandoned := acc.abandoned, retainedURA := acc.retainedURA,
        other := acc.other, peakHour := peakHour, avgWaitTime := avgWaitTime }

/-! ## API-55PBX: historical data (`fetchHistoricalData`) -/

/-- Per-day record produced by `fetchDayData` on success. -/
structure DayData where
  atendidas : Nat
  abandonadas : Nat
  retidasURA : Nat
  total : Nat
deriving Repr, DecidableEq

/-- The four rounded means over the successful days. -/
structure HistMedias where
  atendidas : Nat
  abandonadas : Nat
  retidasURA : Nat
  total : Nat
deriving Repr, DecidableEq

/-- Result of `fetchHistoricalData`. -/
structure Historico where
  dias : Nat
  historico : List DayData
  medias : HistMedias
deriving Repr

/-- `fetchHistoricalData` from `API-55PBX/service.js`: the argument is
the outcome of `fetchDayData` for each of the requested days (in
order, `none` for a day whose fetch failed or had no data).  Days that
failed are skipped; with zero successful days the result is `null`;
otherwise each mean is `Math.round(sum / successCount)`. -/
def fetchHistoricalData (results : List (Option DayData)) : Option Historico :=
  let historico := results.filterMap id
  if historico.isEmpty then none
  else
    some
      { dias := historico.length,
        historico := historico,
        medias :=
          { atendidas :=
              jsRoundDiv (historico.foldl (fun sum d => sum + d.atendidas) 0)
                historico.length,
            abandonadas :=
              jsRoundDiv (historico.foldl (fun sum d => sum + d.abandonadas) 0)
                historico.length,
            retidasURA :=
              jsRoundDiv (historico.foldl (fun sum d => sum + d.retidasURA) 0)
                historico.length,
            total :=
              jsRoundDiv (historico.foldl (fun sum d => sum + d.total) 0)
                historico.length } }

/-! ## API-55PBX: level classification (`classificarNivel`) -/

/-- Result of `classificarNivel`; `descricao` is absent only in the
undefined branch. -/
structure NivelInfo where
  nivel : String
  emoji : String
  percentual : Nat
  descricao : Option String
deriving Repr, DecidableEq

/-- `classificarNivel` from `API-55PBX/service.js`: ratio of the current
value to the historical mean, in percent, bucketed into four tiers;
undefined when the mean is 0. -/
def classificarNivel (valorAtual media : Nat) : NivelInfo :=
  if media = 0 then
    { nivel := "indefinido", emoji := "⚪", percentual := 0, descricao := none }
  else
    let percentual := jsRoundDiv (valorAtual * 100) media
    let descricao :=
      some (toString percentual ++ "% da média (esperado: " ++ toString media ++ ")")
    if percentual < 70 then
      { nivel := "Abaixo do comum", emoji := "🔴", percentual := percentual,
        descricao := descricao }
    else if percentual < 100 then
      { nivel := "Médio", emoji := "🟡", percentual := percentual,
        descricao := descricao }
    else if percentual < 130 then
      { nivel := "Alto", emoji := "🟢", percentual := percentual,
        descricao := descricao }
    else
      { nivel := "Altíssimo", emoji := "🔥", percentual := percentual,
        descricao := descricao }

/-! ## CORE scheduler: execution history and report runs -/

/-- Result returned by the WhatsApp dispatcher to the scheduler. -/
structure SendResult where
  success : Bool
  error : Option String
deriving Repr, DecidableEq

/-- One audit entry of the scheduler's execution history.  `timestamp`
is omitted (ambient wall clock); `duration` is `endTime - startTime`
in milliseconds. -/
structure ExecutionRecord where
  success : Bool
  kpis : Option KPIs
  duration : Nat
  messageId : Option Nat
  error : Option String
deriving Repr

/-- `addToHistory` from the scheduler: unshift the new record to the
front, then drop the last record when the length exceeds 50. -/
def addToHistory (execution : ExecutionRecord) (executionHistory : List ExecutionRecord) :
    List ExecutionRecord :=
  let h := execution :: executionHistory
  if h.length > 50 then h.dropLast else h

/-- `getHistory` from the scheduler: returns the history list as is. -/
def getHistory (executionHistory : List ExecutionRecord) : List ExecutionRecord :=
  executionHistory

/-- How one run of `executeReport` unfolds: either one of the awaited
steps throws (carrying whatever had been computed before it), or all
steps complete and the dispatcher returns a `SendResult`.  The KPI
step is listed as throwable as well, covering any exception raised
before the KPIs are bound. -/
inductive RunOutcome where
  | kpisThrew (msg : String) : RunOutcome
  | analiseThrew (kpis : KPIs) (msg : String) : RunOutcome
  | sendThrew (kpis : KPIs) (msg : String) : RunOutcome
  | completed (kpis : KPIs) (result : SendResult) : RunOutcome

/-- The failed Execution Record built in the `catch` branch of
`executeReport`: no KPIs, the error message, the elapsed duration. -/
def catchRecord (msg : String) (startTime endTime : Nat) : ExecutionRecord :=
  { success := false, kpis := none, duration := endTime - startTime,
    messageId := none, error := some msg }

/-- `executeReport` from the CORE scheduler, over an explicit run
outcome: every path builds an Execution Record, unshifts it into the
history and returns it — exceptions are caught, never propagated. -/
def executeReport (o : RunOutcome) (startTime endTime : Nat)
    (executionHistory : List ExecutionRecord) :
    ExecutionRecord × List ExecutionRecord :=
  match o with
  | .kpisThrew msg =>
    let e := catchRecord msg startTime endTime
    (e, addToHistory e executionHistory)
  | .analiseThrew _ msg =>
    let e := catchRecord msg startTime endTime
    (e, addToHistory e executionHistory)
  | .sendThrew _ msg =>
    let e := catchRecord msg startTime endTime
    (e, addToHistory e executionHistory)
  | .completed kpis result =>
    let e : ExecutionRecord :=
      { success := result.success, kpis := some kpis,
        duration := endTime - startTime, messageId := none,
        error := result.error }
    (e, addToHistory e executionHistory)

/-! ## CORE scheduler: next run computation (`getNextRun`) -/

/-- Strict lexicographic comparison of two UTF-16 code-unit sequences,
modelling the default string comparator of `Array.prototype.sort`
and the JavaScript `<` operator on strings. -/
def jsLtChars : List Char → List Char → Bool
  | _, [] => false
  | [], _ :: _ => true
  | a :: as, b :: bs =>
    if a.toNat < b.toNat then true
    else if b.toNat < a.toNat then false
    else jsLtChars as bs

/-- Non-strict string comparator fed to the sort. -/
def jsLeStr (a b : String) : Bool :=
  !jsLtChars b.data a.data

/-- Parses one schedule entry: `time.split(':')` destructured into hour
and minute (`Number` of each part, a missing minute part counts as 0),
folded into minutes of day. -/
def timeMinutes (time : String) : Nat :=
  let parts := splitColonAux time.data []
  let hour := digitsVal (parts.getD 0 [])
  let minute := digitsVal (parts.getD 1 [])
  hour * 60 + minute

/-- `getNextRun` from the CORE scheduler.  `nowMin` is the current
instant, floored to whole minutes of today (the scheduled instants
are whole minutes, so `scheduled > now` is equivalent to the strict
comparison on floored minutes).  Returns `(0, m)` for today at minute
`m`, `(1, m)` for tomorrow; `none` only for an empty schedule. -/
def getNextRun (scheduledTimes : List String) (nowMin : Nat) : Option (Nat × Nat) :=
  match (scheduledTimes.mergeSort jsLeStr).find?
      (fun time => decide (nowMin < timeMinutes time)) with
  | some time => some (0, timeMinutes time)
  | none =>
    match scheduledTimes.mergeSort jsLeStr with
    | [] => none
    | time :: _ => some (1, timeMinutes time)

/-- A well-formed zero-padded schedule entry: exactly `"HH:MM"` with
decimal digits, hour below 24 and minute below 60. -/
def isWFTime (t : String) : Bool :=
  match t.data with
  | [h1, h2, c, m1, m2] =>
    c == ':' && (48 ≤ h1.toNat && h1.toNat ≤ 57) && (48 ≤ h2.toNat && h2.toNat ≤ 57)
      && (48 ≤ m1.toNat && m1.toNat ≤ 57) && (48 ≤ m2.toNat && m2.toNat ≤ 57)
      && (10 * (h1.toNat - 48) + (h2.toNat - 48) < 24)
      && (10 * (m1.toNat - 48) + (m2.toNat - 48) < 60)
  | _ => false

/-! ## API-WHATSAPP: dispatcher -/

/-- The configured destination number (`config.destination`); its value
is irrelevant to the verified properties, only its identity. -/
def configDestination : String := "5511999999999"

/-- One observable outgoing interaction of the dispatcher. -/
inductive WEvent where
  | postRelatorio (dest : String) (ligacoesRecebidas ligacoesAtendidas ligacoesAbandonadas : Nat)
      (periodo : String) (filas : List (Nat × Nat)) : WEvent
  | postMensagem (dest : String) (mensagem : String) : WEvent
  | delayMs (ms : Nat) : WEvent
deriving Repr, DecidableEq

/-- The structured report payload posted by `sendRelatorio`, as an
event: destination, the three counters, the period label and the
peak-hour queue list. -/
def relatorioEvent (kpis : KPIs) (hora : Nat) : WEvent :=
  .postRelatorio configDestination kpis.totalCalls kpis.answered kpis.abandoned
    (if hora < 12 then "Manhã" else "Tarde")
    (match kpis.peakHour with
     | some (h, c) => [(h, c)]
     | none => [])

/-- `sendMessage` from `API-WHATSAPP/service.js`: posts a plain message
to the explicit number or to the configured destination; a transport
error is caught and reported as `success := false`. -/
def sendMessage (mensagem : String) (numero : Option String)
    (configured : Bool) (outcome : Except String String) :
    SendResult × List WEvent :=
  let targetNumber := numero.getD configDestination
  if !configured then
    ({ success := false, error := some "API não configurada" }, [])
  else
    match outcome with
    | .ok _ => ({ success := true, error := none }, [.postMensagem targetNumber mensagem])
    | .error e => ({ success := false, error := some e }, [.postMensagem targetNumber mensagem])

/-- Per-metric level classification attached to a historical analysis. -/
structure AnaliseNiveis where
  atendidas : NivelInfo
  abandonadas : NivelInfo
  retidasURA : NivelInfo
  total : NivelInfo
deriving Repr

/-- Result shape of `analisarDiaAtual` as consumed by the dispatcher. -/
structure AnaliseResult where
  hoje : KPIs
  historico : Option Historico
  analise : Option AnaliseNiveis
deriving Repr

/-- The follow-up comparison message text built by
`sendAnaliseHistorica` (template literal rendered by concatenation). -/
def analiseMensagem (hoje : KPIs) (historico : Historico) (niveis : AnaliseNiveis) : String :=
  niveis.total.emoji ++ " *Média da operação: " ++ niveis.total.nivel ++ "*\n" ++
  "comparado com os últimos 15 dias\n\n" ++
  "📊 *Análise Detalhada:*\n\n" ++
  "✅ Atendidas: " ++ toString hoje.answered ++ " (média: " ++
    toString historico.medias.atendidas ++ ")\n" ++
  "   " ++ niveis.atendidas.emoji ++ " " ++ toString niveis.atendidas.percentual ++
    "% do esperado\n\n" ++
  "📵 Abandonadas: " ++ toString hoje.abandoned ++ " (média: " ++
    toString historico.medias.abandonadas ++ ")\n" ++
  "   " ++ niveis.abandonadas.emoji ++ " " ++ toString niveis.abandonadas.percentual ++
    "% do esperado\n\n" ++
  "🔄 Retidas URA: " ++ toString hoje.retainedURA ++ " (média: " ++
    toString historico.medias.retidasURA ++ ")\n" ++
  "   " ++ niveis.retidasURA.emoji ++ " " ++ toString niveis.retidasURA.percentual ++
    "% do esperado\n\n" ++
  "📈 *Volume total: " ++ toString niveis.total.percentual ++ "% da média*\n" ++
  "_Baseado nos últimos " ++ toString historico.dias ++ " dias úteis_"

/-- `sendAnaliseHistorica` from `API-WHATSAPP/service.js`: with no
classification set it returns a failure without sending; otherwise it
renders the message (dereferencing `historico`, which throws a
`TypeError` — modelled as `Except.error` — when `historico` is null),
waits 2 seconds, and sends it via `sendMessage`, whose own failure is
caught and reported, never thrown. -/
def sendAnaliseHistorica (analise : AnaliseResult)
    (configured : Bool) (outcome : Except String String) :
    Except String (SendResult × List WEvent) :=
  match analise.analise with
  | none => .ok ({ success := false, error := some "Sem dados de análise" }, [])
  | some niveis =>
    match analise.historico with
    | none => .error "TypeError: historico is null"
    | some historico =>
      let mensagem := analiseMensagem analise.hoje historico niveis
      let (result, events) := sendMessage mensagem none configured outcome
      .ok (result, .delayMs 2000 :: events)

/-- `sendRelatorio` from `API-WHATSAPP/service.js`, with the transport
outcome of the report post and of the follow-up send passed
explicitly.  Posts the structured report payload; on success, if a
historical analysis with a non-null classification set is present,
follows up with the separately-formatted comparison message; the
follow-up's own result is discarded. -/
def sendRelatorio (kpis : KPIs) (analise : Option AnaliseResult)
    (hora : Nat) (configured : Bool)
    (postOutcome : Except String String) (msgOutcome : Except String String) :
    SendResult × List WEvent :=
  if !configured then
    ({ success := false, error := some "API não configurada" }, [])
  else
    let payloadEvent := relatorioEvent kpis hora
    match postOutcome with
    | .error e => ({ success := false, error := some e }, [payloadEvent])
    | .ok _ =>
      match analise with
      | some a =>
        match a.analise with
        | some _ =>
          match sendAnaliseHistorica a configured msgOutcome with
          | .ok (_, ev2) => ({ success := true, error := none }, payloadEvent :: ev2)
          | .error e => ({ success := false, error := some e }, [payloadEvent])
        | none => ({ success := true, error := none }, [payloadEvent])
      | none => ({ success := true, error := none }, [payloadEvent])

/-! ## DB-Reports: file-backed day cache -/

/-- One stored call event (the ingested payload plus the write
timestamp added by `addCall`). -/
structure CallRec where
  payload : String
  timestamp : Nat
deriving Repr, DecidableEq

/-- TTL metadata stored next to a day's calls file. -/
structure CacheMetadata where
  createdAt : Nat
  expiresAt : Nat
  ttl : Nat
deriving Repr, DecidableEq

/-- The two files backing one calendar day: the calls list and the TTL
metadata; `none` models an absent (or unreadable) file. -/
structure DayStore where
  calls : Option (List CallRec)
  metadata : Option CacheMetadata
deriving Repr, DecidableEq

/-- The default TTL: 25 hours in seconds. -/
def DEFAULT_TTL : Nat := 90000

/-- `addCall` from the DB-Reports service at instant `now` (ms): reads
the existing list (or starts fresh), appends the call stamped with
`now`, and rewrites the metadata with `expiresAt = now + 25h` —
the TTL slides forward on every write. -/
def addCall (now : Nat) (callPayload : String) (st : DayStore) : DayStore :=
  let calls := st.calls.getD []
  { calls := some (calls ++ [{ payload := callPayload, timestamp := now }]),
    metadata := some
      { createdAt := now, expiresAt := now + DEFAULT_TTL * 1000, ttl := DEFAULT_TTL } }

/-- `hasCache` from the DB-Reports service at instant `now` (ms):
absent calls file → `false`; unreadable/absent metadata → `true`
with no expiry check; expired metadata (`expiresAt < now`) → both
files removed and `false`; otherwise `true`. -/
def hasCache (now : Nat) (st : DayStore) : Bool × DayStore :=
  match st.calls with
  | none => (false, st)
  | some _ =>
    match st.metadata with
    | none => (true, st)
    | some metadata =>
      if metadata.expiresAt < now then
        (false, { calls := none, metadata := none })
      else
        (true, st)

/-! ## Helper lemmas -/

/-- A snapshot whose six numeric KPIs are zero and whose peak hour is
absent. -/
def isAllZero (k : KPIs) : Prop :=
  k.totalCalls = 0 ∧ k.answered = 0 ∧ k.abandoned = 0 ∧ k.retainedURA = 0 ∧
    k.other = 0 ∧ k.avgWaitTime = 0 ∧ k.peakHour = none

theorem addToHistory_head (e : ExecutionRecord) (h : List ExecutionRecord) :
    (addToHistory e h).head? = some e := by
  unfold addToHistory
  cases h with
  | nil => simp
  | cons x xs =>
    by_cases hl : 50 < xs.length + 1 + 1
    · rw [if_pos (by simpa using hl)]
      simp
    · rw [if_neg (by simpa using hl)]
      simp

theorem addToHistory_length (e : ExecutionRecord) (h : List ExecutionRecord) :
    (addToHistory e h).length = if h.length + 1 > 50 then h.length else h.length + 1 := by
  unfold addToHistory
  by_cases hl : h.length + 1 > 50
  · rw [if_pos (by simpa using hl), if_pos hl]
    simp [List.length_dropLast]
  · rw [if_neg (by simpa using hl), if_neg hl]
    simp

theorem foldl_addToHistory_length :
    ∀ (es : List ExecutionRecord) (acc : List ExecutionRecord), acc.length ≤ 50 →
      (es.foldl (fun acc e => addToHistory e acc) acc).length = min (acc.length + es.length) 50
  | [], acc, h => by
    simp only [List.foldl_nil, List.length_nil, Nat.add_zero]
    omega
  | e :: rest, acc, h => by
    rw [List.foldl_cons]
    rw [foldl_addToHistory_length rest (addToHistory e acc)
      (by rw [addToHistory_length]; split <;> omega)]
    rw [addToHistory_length]
    simp only [List.length_cons]
    split <;> omega

theorem foldl_sum_field (f : DayData → Nat) :
    ∀ (l : List DayData) (s : Nat),
      l.foldl (fun sum d => sum + f d) s = s + (l.map f).sum
  | [], s => by simp
  | d :: rest, s => by
    rw [List.foldl_cons, foldl_sum_field f rest (s + f d)]
    simp [Nat.add_assoc]

theorem callStep_counts (acc : ListAcc) (c : CallData) :
    (callStep acc c).answered + (callStep acc c).abandoned
      + (callStep acc c).retainedURA + (callStep acc c).other
    = acc.answered + acc.abandoned + acc.retainedURA + acc.other + 1 := by
  unfold callStep
  cases hcl : classifyCallStatus c <;> cases hhour : c.call_date_hour <;> simp <;> omega

theorem foldl_callStep_counts :
    ∀ (calls : List CallData) (acc : ListAcc),
      (calls.foldl callStep acc).answered + (calls.foldl callStep acc).abandoned
        + (calls.foldl callStep acc).retainedURA + (calls.foldl callStep acc).other
      = acc.answered + acc.abandoned + acc.retainedURA + acc.other + calls.length
  | [], acc => by simp
  | c :: rest, acc => by
    rw [List.foldl_cons, foldl_callStep_counts rest (callStep acc c)]
    rw [callStep_counts]
    simp [Nat.add_assoc, Nat.add_comm, Nat.add_left_comm]

/-! ## Claim theorems -/

/-- C1: on a null upstream response, an empty call list, or any caught
internal exception, `calculateDayKPIs` returns a snapshot whose six
numeric KPIs (totalCalls, answered, abandoned, retainedURA, other,
average wait) are all zero and whose `peakHour` is `null`; the
exception path never propagates. -/
theorem calculateDayKPIs_zero_spec :
    isAllZero (calculateDayKPIs .nullResult) ∧
    isAllZero (calculateDayKPIs (.callList [])) ∧
    ∀ msg, isAllZero (calculateDayKPIs (.threwException msg)) := by
  refine ⟨?_, ?_, fun msg => ?_⟩ <;>
    simp [calculateDayKPIs, zeroSnapshot, isAllZero]

/-- C2: `fetchHistoricalData` returns `null` exactly when no per-day
fetch yielded data; otherwise each of the four metric means and the
total mean is the sum over the successful days divided by the count of
successful days (never the requested number of days), rounded to the
nearest integer (half up). -/
theorem fetchHistoricalData_spec (results : List (Option DayData)) :
    (fetchHistoricalData results = none ↔ results.filterMap id = []) ∧
    ∀ h, fetchHistoricalData results = some h →
      h.dias = (results.filterMap id).length ∧
      h.historico = results.filterMap id ∧
      h.medias.atendidas =
        jsRoundDiv ((results.filterMap id).map DayData.atendidas).sum
          (results.filterMap id).length ∧
      h.medias.abandonadas =
        jsRoundDiv ((results.filterMap id).map DayData.abandonadas).sum
          (results.filterMap id).length ∧
      h.medias.retidasURA =
        jsRoundDiv ((results.filterMap id).map DayData.retidasURA).sum
          (results.filterMap id).length ∧
      h.medias.total =
        jsRoundDiv ((results.filterMap id).map DayData.total).sum
          (results.filterMap id).length := by
  by_cases hE : results.filterMap id = []
  · simp [fetchHistoricalData, hE]
  · have hb : (results.filterMap id).isEmpty = false := by
      rw [Bool.eq_false_iff]
      intro hx
      exact hE (List.isEmpty_iff.mp hx)
    constructor
    · simp [fetchHistoricalData, hb, hE]
    · intro h hh
      simp only [fetchHistoricalData, hb, Bool.false_eq_true, if_false,
        Option.some_inj] at hh
      subst hh
      refine ⟨rfl, rfl, ?_, ?_, ?_, ?_⟩ <;>
        simp [foldl_sum_field]

/-- C2 witness: two successful days with totals 10 and 20 (one failed
day in between) give two history entries and mean 15. -/
theorem fetchHistoricalData_spec_witness :
    ∃ h, fetchHistoricalData
        [some ⟨10, 10, 10, 10⟩, none, some ⟨20, 20, 20, 20⟩] = some h ∧
      h.medias.total =
        jsRoundDiv ((([some ⟨10, 10, 10, 10⟩, none, some ⟨20, 20, 20, 20⟩] :
            List (Option DayData)).filterMap id).map DayData.total).sum
          (([some ⟨10, 10, 10, 10⟩, none, some ⟨20, 20, 20, 20⟩] :
            List (Option DayData)).filterMap id).length ∧
      h.medias.total = 15 := by
  refine ⟨⟨2, [⟨10, 10, 10, 10⟩, ⟨20, 20, 20, 20⟩], ⟨15, 15, 15, 15⟩⟩, rfl, ?_, rfl⟩
  exact ((fetchHistoricalData_spec
    [some ⟨10, 10, 10, 10⟩, none, some ⟨20, 20, 20, 20⟩]).2 _ rfl).2.2.2.2.2

/-- C3: level classification against a baseline mean: a zero mean gives
the undefined level regardless of the current value; otherwise the
percentage is `round(current / mean * 100)` and buckets are
below 70 → below normal, 70–99 → normal, 100–129 → high,
130 and above → very high, each with its fixed indicator symbol. -/
theorem classificarNivel_spec :
    (∀ valorAtual, classificarNivel valorAtual 0 =
      { nivel := "indefinido", emoji := "⚪", percentual := 0, descricao := none }) ∧
    ∀ valorAtual media, 0 < media →
      (classificarNivel valorAtual media).percentual =
        jsRoundDiv (valorAtual * 100) media ∧
      (classificarNivel valorAtual media).nivel =
        (if jsRoundDiv (valorAtual * 100) media < 70 then "Abaixo do comum"
         else if jsRoundDiv (valorAtual * 100) media < 100 then "Médio"
         else if jsRoundDiv (valorAtual * 100) media < 130 then "Alto"
         else "Altíssimo") ∧
      (classificarNivel valorAtual media).emoji =
        (if jsRoundDiv (valorAtual * 100) media < 70 then "🔴"
         else if jsRoundDiv (valorAtual * 100) media < 100 then "🟡"
         else if jsRoundDiv (valorAtual * 100) media < 130 then "🟢"
         else "🔥") := by
  constructor
  · intro valorAtual
    simp [classificarNivel]
  · intro valorAtual media hm
    have hm' : ¬ media = 0 := by omega
    by_cases h1 : jsRoundDiv (valorAtual * 100) media < 70
    · simp [classificarNivel, hm', h1]
    · by_cases h2 : jsRoundDiv (valorAtual * 100) media < 100
      · simp [classificarNivel, hm', h1, h2]
      · by_cases h3 : jsRoundDiv (valorAtual * 100) media < 130
        · simp [classificarNivel, hm', h1, h2, h3]
        · simp [classificarNivel, hm', h1, h2, h3]

/-- C3 witness: ratios 0 (zero mean), 65, 99, 100 and 130 hit the five
documented outcomes. -/
theorem classificarNivel_spec_witness :
    (classificarNivel 7 0).nivel = "indefinido" ∧
    (classificarNivel 65 100).nivel = "Abaixo do comum" ∧
    (classificarNivel 99 100).nivel = "Médio" ∧
    (classificarNivel 100 100).nivel = "Alto" ∧
    (classificarNivel 130 100).nivel = "Altíssimo" := by
  have h0 := classificarNivel_spec.1 7
  have h65 := (classificarNivel_spec.2 65 100 (by norm_num)).2.1
  have h99 := (classificarNivel_spec.2 99 100 (by norm_num)).2.1
  have h100 := (classificarNivel_spec.2 100 100 (by norm_num)).2.1
  have h130 := (classificarNivel_spec.2 130 100 (by norm_num)).2.1
  simp [jsRoundDiv] at h65 h99 h100 h130
  exact ⟨by rw [h0], h65, h99, h100, h130⟩

/-- C4: every call record is classified into exactly one of the four
categories by the stated first-match precedence, and in the list
branch of `calculateDayKPIs` the four per-category counts sum to the
list length, which is exactly the snapshot's `totalCalls`. -/
theorem classifyCallStatus_spec :
    (∀ calls : List CallData,
      (calculateDayKPIs (.callList calls)).answered
        + (calculateDayKPIs (.callList calls)).abandoned
        + (calculateDayKPIs (.callList calls)).retainedURA
        + (calculateDayKPIs (.callList calls)).other = calls.length ∧
      (calculateDayKPIs (.callList calls)).totalCalls = calls.length) ∧
    ∀ c : CallData,
      classifyCallStatus c =
        (let status := (orElseStr c.call_status c.status).toUpper
         let queue := orElseStr c.call_queue c.queue
         let flag := jsOr c.answered c.atendida
         if flag == .boolVal true || flag == .numVal 1 || flag == .strVal "1" then
           .answered
         else if jsIncludes status "ANSWERED" || jsIncludes status "ATENDIDA" then
           .answered
         else if jsIncludes status "ABANDONED" || jsIncludes status "ABANDONADA"
             || jsIncludes status "NO ANSWER" then
           .abandoned
         else if jsIncludes status "URA" || jsIncludes status "IVR" || queue = "" then
           .retained_ura
         else
           .other) := by
  constructor
  · intro calls
    by_cases hE : calls.isEmpty
    · rw [List.isEmpty_iff] at hE
      subst hE
      simp [calculateDayKPIs, zeroSnapshot]
    · have hb : calls.isEmpty = false := by
        rw [Bool.eq_false_iff]
        exact hE
      simp only [calculateDayKPIs, hb, Bool.false_eq_true, if_false]
      refine ⟨?_, by trivial⟩
      simpa using foldl_callStep_counts calls
        { answered := 0, abandoned := 0, retainedURA := 0, other := 0,
          totalWaitTime := 0, hourCounts := [] }
  · intro c
    rfl

/-- C5: every run of `executeReport` — whichever step throws — builds
an Execution Record (a thrown step yields `success = false`, the error
message, the elapsed duration and no KPIs; a completed run stores the
computed KPIs and the dispatcher's success flag and error), unshifts it
into the history, and returns it instead of propagating the
exception. -/
theorem executeReport_spec :
    (∀ msg s t hist, executeReport (.kpisThrew msg) s t hist =
      (catchRecord msg s t, addToHistory (catchRecord msg s t) hist)) ∧
    (∀ kpis msg s t hist, executeReport (.analiseThrew kpis msg) s t hist =
      (catchRecord msg s t, addToHistory (catchRecord msg s t) hist)) ∧
    (∀ kpis msg s t hist, executeReport (.sendThrew kpis msg) s t hist =
      (catchRecord msg s t, addToHistory (catchRecord msg s t) hist)) ∧
    (∀ kpis result s t hist, executeReport (.completed kpis result) s t hist =
      ({ success := result.success, kpis := some kpis, duration := t - s,
         messageId := none, error := result.error },
       addToHistory
         { success := result.success, kpis := some kpis, duration := t - s,
           messageId := none, error := result.error } hist)) ∧
    (∀ msg s t, (catchRecord msg s t).success = false ∧
      (catchRecord msg s t).error = some msg ∧ (catchRecord msg s t).kpis = none ∧
      (catchRecord msg s t).duration = t - s) ∧
    ∀ o s t hist,
      ((executeReport o s t hist).2).head? = some (executeReport o s t hist).1 := by
  refine ⟨fun _ _ _ _ => rfl, fun _ _ _ _ _ => rfl, fun _ _ _ _ _ => rfl,
    fun _ _ _ _ _ => rfl, fun msg s t => ⟨rfl, rfl, rfl, rfl⟩, fun o s t hist => ?_⟩
  cases o <;> exact addToHistory_head _ _

/-- C6: the execution history is most-recent-first and capped at 50: a
new record is unshifted to the front, a history of at most 50 entries
stays at most 50 after an insert, and 60 successive inserts starting
from an empty history leave exactly 50 entries. -/
theorem executionHistory_cap_spec :
    (∀ e h, (addToHistory e h).head? = some e) ∧
    (∀ e (h : List ExecutionRecord), h.length ≤ 50 →
      (addToHistory e h).length ≤ 50) ∧
    ∀ es : List ExecutionRecord, es.length = 60 →
      (es.foldl (fun acc e => addToHistory e acc) []).length = 50 := by
  refine ⟨addToHistory_head, fun e h hh => ?_, fun es hes => ?_⟩
  · rw [addToHistory_length]; split <;> omega
  · rw [foldl_addToHistory_length es [] (by simp)]
    simp [hes]

/-- C6 witness: inserting into a full 50-entry history keeps 50 entries,
and 60 inserts from empty leave exactly 50. -/
theorem executionHistory_cap_spec_witness :
    (addToHistory ⟨true, none, 0, none, none⟩
      (List.replicate 50 ⟨true, none, 0, none, none⟩)).length ≤ 50 ∧
    ((List.replicate 60 (⟨true, none, 0, none, none⟩ : ExecutionRecord)).foldl
      (fun acc e => addToHistory e acc) []).length = 50 :=
  ⟨executionHistory_cap_spec.2.1 _ _ (by simp),
   executionHistory_cap_spec.2.2 _ (by simp)⟩

/-- C8: every `addCall` write refreshes the day's TTL metadata to expire
25 hours (90000 seconds) after that write, regardless of the previous
state (sliding TTL); a `hasCache` query before the expiry instant
returns `true` leaving the store untouched, and the first query after
the expiry instant deletes both the calls record and the metadata and
returns `false`. -/
theorem addCall_ttl_spec (now : Nat) (payload : String) (st : DayStore) (t : Nat) :
    (addCall now payload st).metadata =
      some { createdAt := now, expiresAt := now + DEFAULT_TTL * 1000,
             ttl := DEFAULT_TTL } ∧
    (t < now + DEFAULT_TTL * 1000 →
      hasCache t (addCall now payload st) = (true, addCall now payload st)) ∧
    (now + DEFAULT_TTL * 1000 < t →
      hasCache t (addCall now payload st) = (false, ⟨none, none⟩)) := by
  refine ⟨rfl, fun hlt => ?_, fun hgt => ?_⟩
  · simp [hasCache, addCall]
    omega
  · simp [hasCache, addCall]
    omega

/-- C8 witness: a write at instant 0 expires at 90000000 ms; a query at
instant 1 keeps the record, a query at instant 100000000 removes it. -/
theorem addCall_ttl_spec_witness :
    hasCache 1 (addCall 0 "call" ⟨none, none⟩) =
      (true, addCall 0 "call" ⟨none, none⟩) ∧
    hasCache 100000000 (addCall 0 "call" ⟨none, none⟩) = (false, ⟨none, none⟩) :=
  ⟨(addCall_ttl_spec 0 "call" ⟨none, none⟩ 1).2.1 (by norm_num [DEFAULT_TTL]),
   (addCall_ttl_spec 0 "call" ⟨none, none⟩ 100000000).2.2 (by norm_num [DEFAULT_TTL])⟩

/-- C9: a dispatched report whose historical comparison has a non-null
classification set (and a non-null history, as every comparison built
by the analyzer has) posts exactly two messages to the configured
destination — the report payload, then after a fixed 2-second delay
the separately-formatted comparison message — and the overall result
stays successful whatever the outcome of the second send; with a null
or absent comparison only the report payload is posted. -/
theorem sendRelatorio_spec (kpis : KPIs) (a : AnaliseResult) (niveis : AnaliseNiveis)
    (historico : Historico) (hora : Nat) (resp : String) (o2 : Except String String)
    (h1 : a.analise = some niveis) (h2 : a.historico = some historico) :
    (sendRelatorio kpis (some a) hora true (.ok resp) o2).1 =
      { success := true, error := none } ∧
    (sendRelatorio kpis (some a) hora true (.ok resp) o2).2 =
      [relatorioEvent kpis hora, .delayMs 2000,
       .postMensagem configDestination (analiseMensagem a.hoje historico niveis)] ∧
    (sendRelatorio kpis none hora true (.ok resp) o2).2 =
      [relatorioEvent kpis hora] ∧
    ∀ b : AnaliseResult, b.analise = none →
      (sendRelatorio kpis (some b) hora true (.ok resp) o2).2 =
        [relatorioEvent kpis hora] := by
  refine ⟨?_, ?_, rfl, fun b hb => ?_⟩
  · cases o2 <;> simp [sendRelatorio, sendAnaliseHistorica, sendMessage, h1, h2]
  · cases o2 <;> simp [sendRelatorio, sendAnaliseHistorica, sendMessage, h1, h2]
  · simp [sendRelatorio, hb]

/-- C9 witness: with a concrete snapshot and comparison, the dispatcher
posts the report and the comparison message even when the second send
fails, and posts only the report when the classification set is null. -/
theorem sendRelatorio_spec_witness :
    (sendRelatorio (zeroSnapshot none)
      (some ⟨zeroSnapshot none, some ⟨1, [⟨1, 1, 1, 1⟩], ⟨1, 1, 1, 1⟩⟩,
        some ⟨classificarNivel 1 1, classificarNivel 1 1, classificarNivel 1 1,
          classificarNivel 1 1⟩⟩)
      9 true (.ok "ok") (.error "timeout")).1 = { success := true, error := none } ∧
    (sendRelatorio (zeroSnapshot none)
      (some ⟨zeroSnapshot none, some ⟨1, [⟨1, 1, 1, 1⟩], ⟨1, 1, 1, 1⟩⟩,
        some ⟨classificarNivel 1 1, classificarNivel 1 1, classificarNivel 1 1,
          classificarNivel 1 1⟩⟩)
      9 true (.ok "ok") (.error "timeout")).2 =
      [relatorioEvent (zeroSnapshot none) 9, .delayMs 2000,
       .postMensagem configDestination
         (analiseMensagem (zeroSnapshot none) ⟨1, [⟨1, 1, 1, 1⟩], ⟨1, 1, 1, 1⟩⟩
           ⟨classificarNivel 1 1, classificarNivel 1 1, classificarNivel 1 1,
             classificarNivel 1 1⟩)] ∧
    (sendRelatorio (zeroSnapshot none)
      (some ⟨zeroSnapshot none, none, none⟩) 9 true (.ok "ok") (.error "timeout")).2 =
      [relatorioEvent (zeroSnapshot none) 9] := by
  have h := sendRelatorio_spec (zeroSnapshot none)
    ⟨zeroSnapshot none, some ⟨1, [⟨1, 1, 1, 1⟩], ⟨1, 1, 1, 1⟩⟩,
      some ⟨classificarNivel 1 1, classificarNivel 1 1, classificarNivel 1 1,
        classificarNivel 1 1⟩⟩
    ⟨classificarNivel 1 1, classificarNivel 1 1, classificarNivel 1 1,
      classificarNivel 1 1⟩
    ⟨1, [⟨1, 1, 1, 1⟩], ⟨1, 1, 1, 1⟩⟩ 9 "ok" (.error "timeout") rfl rfl
  exact ⟨h.1, h.2.1, h.2.2.2 ⟨zeroSnapshot none, none, none⟩ rfl⟩

/-- C10: when the day's calls record exists but its TTL metadata is
missing or unreadable, `hasCache` answers `true` at every instant,
performs no deletion, and leaves the store untouched — the record is
treated as live indefinitely. -/
theorem hasCache_noMetadata_spec (now : Nat) (st : DayStore) (l : List CallRec)
    (h1 : st.calls = some l) (h2 : st.metadata = none) :
    hasCache now st = (true, st) := by
  cases st with
  | mk calls metadata =>
    simp only at h1 h2
    subst h1
    subst h2
    rfl

/-- C10 witness: a store with one orphan calls record and no metadata
stays live at an arbitrarily late instant. -/
theorem hasCache_noMetadata_spec_witness :
    hasCache 999999999999 ⟨some [⟨"c", 0⟩], none⟩ =
      (true, ⟨some [⟨"c", 0⟩], none⟩) :=
  hasCache_noMetadata_spec 999999999999 ⟨some [⟨"c", 0⟩], none⟩ [⟨"c", 0⟩] rfl rfl

/-! ## Lemmas about the schedule-time ordering -/

theorem jsLtChars_irrefl : ∀ l, jsLtChars l l = false
  | [] => rfl
  | a :: as => by
    simp [jsLtChars, jsLtChars_irrefl as]

theorem jsLtChars_asymm : ∀ a b, jsLtChars a b = true → jsLtChars b a = false
  | a, [], h => by simp [jsLtChars] at h
  | [], b :: bs, _ => by
    cases bs <;> simp [jsLtChars]
  | a :: as, b :: bs, h => by
    simp only [jsLtChars] at h ⊢
    by_cases e1 : a.toNat < b.toNat
    · rw [if_neg (by omega), if_pos e1]
    · by_cases e2 : b.toNat < a.toNat
      · rw [if_neg e1, if_pos e2] at h
        exact absurd h (by simp)
      · rw [if_neg e1, if_neg e2] at h
        rw [if_neg e2, if_neg e1]
        exact jsLtChars_asymm as bs h

theorem jsLtChars_false_trans : ∀ a b c, jsLtChars a b = false → jsLtChars b c = false →
    jsLtChars a c = false
  | a, b, [], _, _ => by cases a <;> simp [jsLtChars]
  | a, [], z :: zs, _, h2 => by simp [jsLtChars] at h2
  | [], y :: ys, z :: zs, h1, _ => by simp [jsLtChars] at h1
  | x :: xs, y :: ys, z :: zs, h1, h2 => by
    simp only [jsLtChars] at h1 h2 ⊢
    by_cases e1 : x.toNat < y.toNat
    · rw [if_pos e1] at h1
      exact absurd h1 (by simp)
    · by_cases e2 : y.toNat < z.toNat
      · rw [if_pos e2] at h2
        exact absurd h2 (by simp)
      · rw [if_neg e1] at h1
        rw [if_neg e2] at h2
        by_cases e3 : y.toNat < x.toNat
        · rw [if_neg (by omega), if_pos (by omega)]
        · by_cases e4 : z.toNat < y.toNat
          · rw [if_neg (by omega), if_pos (by omega)]
          · rw [if_neg e3] at h1
            rw [if_neg e4] at h2
            rw [if_neg (by omega), if_neg (by omega)]
            exact jsLtChars_false_trans xs ys zs h1 h2

theorem jsLeStr_trans (a b c : String) (h1 : jsLeStr a b = true)
    (h2 : jsLeStr b c = true) : jsLeStr a c = true := by
  simp only [jsLeStr, Bool.not_eq_true'] at h1 h2 ⊢
  exact jsLtChars_false_trans c.data b.data a.data h2 h1

theorem jsLeStr_total (a b : String) : (jsLeStr a b || jsLeStr b a) = true := by
  unfold jsLeStr
  by_cases h : jsLtChars b.data a.data = true
  · simp [h, jsLtChars_asymm _ _ h]
  · simp [Bool.not_eq_true] at h
    simp [h]

theorem isWFTime_spec (t : String) (h : isWFTime t = true) :
    ∃ a b c d : Char, t.data = [a, b, ':', c, d] ∧
      48 ≤ a.toNat ∧ a.toNat ≤ 57 ∧ 48 ≤ b.toNat ∧ b.toNat ≤ 57 ∧
      48 ≤ c.toNat ∧ c.toNat ≤ 57 ∧ 48 ≤ d.toNat ∧ d.toNat ≤ 57 ∧
      10 * (a.toNat - 48) + (b.toNat - 48) < 24 ∧
      10 * (c.toNat - 48) + (d.toNat - 48) < 60 ∧
      timeMinutes t =
        (10 * (a.toNat - 48) + (b.toNat - 48)) * 60
          + (10 * (c.toNat - 48) + (d.toNat - 48)) := by
  unfold isWFTime at h
  split at h
  case h_2 => exact absurd h (by simp)
  case h_1 a b c0 c d heq =>
    simp only [Bool.and_eq_true, beq_iff_eq, decide_eq_true_eq] at h
    obtain ⟨⟨⟨⟨⟨⟨hc0, ha⟩, hb⟩, hc⟩, hd⟩, hhour⟩, hmin⟩ := h
    subst hc0
    have ea : (a == ':') = false := by
      rw [beq_eq_false_iff_ne]
      rintro rfl
      revert ha
      decide
    have eb : (b == ':') = false := by
      rw [beq_eq_false_iff_ne]
      rintro rfl
      revert hb
      decide
    have ec : (c == ':') = false := by
      rw [beq_eq_false_iff_ne]
      rintro rfl
      revert hc
      decide
    have ed : (d == ':') = false := by
      rw [beq_eq_false_iff_ne]
      rintro rfl
      revert hd
      decide
    refine ⟨a, b, c, d, heq, ha.1, ha.2, hb.1, hb.2, hc.1, hc.2, hd.1, hd.2,
      hhour, hmin, ?_⟩
    unfold timeMinutes
    rw [heq]
    simp [splitColonAux, ea, eb, ec, ed, digitsVal]

theorem jsLt_iff_lt_timeMinutes (s t : String) (hs : isWFTime s = true)
    (ht : isWFTime t = true) :
    jsLtChars s.data t.data = true ↔ timeMinutes s < timeMinutes t := by
  obtain ⟨a1, a2, b1, b2, hseq, ha1l, ha1u, ha2l, ha2u, hb1l, hb1u, hb2l, hb2u,
    hsh, hsm, hsval⟩ := isWFTime_spec s hs
  obtain ⟨c1, c2, d1, d2, hteq, hc1l, hc1u, hc2l, hc2u, hd1l, hd1u, hd2l, hd2u,
    hth, htm, htval⟩ := isWFTime_spec t ht
  rw [hseq, hteq, hsval, htval]
  have h58 : (':' : Char).toNat = 58 := rfl
  simp only [jsLtChars, h58]
  norm_num
  omega

theorem find?_pairwise_min {p : String → Bool} :
    ∀ (l : List String), l.Pairwise (fun a b => timeMinutes a ≤ timeMinutes b) →
      ∀ t, l.find? p = some t →
        p t = true ∧ t ∈ l ∧ ∀ u ∈ l, p u = true → timeMinutes t ≤ timeMinutes u
  | [], _, t, h => by simp at h
  | a :: l, hpw, t, h => by
    rcases List.pairwise_cons.mp hpw with ⟨hhead, htail⟩
    by_cases hpa : p a = true
    · rw [List.find?_cons_of_pos _ hpa] at h
      injection h with h
      subst h
      refine ⟨hpa, List.mem_cons_self _ _, ?_⟩
      intro u hu _
      rcases List.mem_cons.mp hu with rfl | hu
      · exact le_refl _
      · exact hhead u hu
    · rw [List.find?_cons_of_neg _ hpa] at h
      obtain ⟨hpt, hmem, hmin⟩ := find?_pairwise_min l htail t h
      refine ⟨hpt, List.mem_cons_of_mem _ hmem, ?_⟩
      intro u hu hpu
      rcases List.mem_cons.mp hu with rfl | hu
      · exact absurd hpu hpa
      · exact hmin u hu hpu

/-- C7: for a non-empty schedule of well-formed zero-padded `"HH:MM"`
entries and any current instant, `getNextRun` returns the earliest
configured time-of-day strictly in the future today, or — when all of
today's configured times have passed — the earliest configured time
tomorrow. -/
theorem getNextRun_spec (times : List String) (now : Nat)
    (hne : times ≠ []) (hwf : ∀ t ∈ times, isWFTime t = true) :
    (∃ s ∈ times, getNextRun times now = some (0, timeMinutes s) ∧
      now < timeMinutes s ∧
      ∀ u ∈ times, now < timeMinutes u → timeMinutes s ≤ timeMinutes u) ∨
    ((∀ u ∈ times, timeMinutes u ≤ now) ∧
      ∃ s ∈ times, getNextRun times now = some (1, timeMinutes s) ∧
        ∀ u ∈ times, timeMinutes s ≤ timeMinutes u) := by
  have hperm : (times.mergeSort jsLeStr).Perm times := List.mergeSort_perm times jsLeStr
  have hsorted : (times.mergeSort jsLeStr).Pairwise (fun a b => jsLeStr a b = true) :=
    List.sorted_mergeSort (fun a b c => jsLeStr_trans a b c) jsLeStr_total times
  have hwf' : ∀ t ∈ times.mergeSort jsLeStr, isWFTime t = true :=
    fun t htm => hwf t (hperm.mem_iff.mp htm)
  have hpw : (times.mergeSort jsLeStr).Pairwise
      (fun a b => timeMinutes a ≤ timeMinutes b) := by
    refine hsorted.imp_of_mem ?_
    intro a b ha hb hle
    have hlt : jsLtChars b.data a.data = false := by
      simpa [jsLeStr, Bool.not_eq_true'] using hle
    by_contra hcon
    push_neg at hcon
    have := (jsLt_iff_lt_timeMinutes b a (hwf' b hb) (hwf' a ha)).mpr hcon
    rw [this] at hlt
    exact absurd hlt (by simp)
  cases hf : (times.mergeSort jsLeStr).find?
      (fun time => decide (now < timeMinutes time)) with
  | some t =>
    obtain ⟨hpt, hmem, hmin⟩ := find?_pairwise_min _ hpw t hf
    left
    refine ⟨t, hperm.mem_iff.mp hmem, ?_, of_decide_eq_true hpt, ?_⟩
    · unfold getNextRun
      rw [hf]
    · intro u hu hnu
      exact hmin u (hperm.mem_iff.mpr hu) (decide_eq_true hnu)
  | none =>
    right
    have hall : ∀ u ∈ times, timeMinutes u ≤ now := by
      intro u hu
      have hnp := List.find?_eq_none.mp hf u (hperm.mem_iff.mpr hu)
      simpa using hnp
    refine ⟨hall, ?_⟩
    cases hs : times.mergeSort jsLeStr with
    | nil =>
      exfalso
      apply hne
      have h0 : List.Perm ([] : List String) times := hs ▸ hperm
      exact List.Perm.eq_nil h0.symm
    | cons s rest =>
      have hmem : s ∈ times := hperm.mem_iff.mp (hs ▸ List.mem_cons_self s rest)
      refine ⟨s, hmem, ?_, ?_⟩
      · unfold getNextRun
        rw [hf, hs]
      · intro u hu
        have hpw' : (s :: rest).Pairwise (fun a b => timeMinutes a ≤ timeMinutes b) :=
          hs ▸ hpw
        rcases List.pairwise_cons.mp hpw' with ⟨hhead, _⟩
        have hu' : u ∈ s :: rest := hs ▸ hperm.mem_iff.mpr hu
        rcases List.mem_cons.mp hu' with rfl | hrest
        · exact le_refl _
        · exact hhead u hrest

/-- C7 witness: with schedule 09:00/18:00 the spec applies at 10:00 and
at 19:00 (in minutes of day: 600 and 1140). -/
theorem getNextRun_spec_witness :
    ((∃ s ∈ (["09:00", "18:00"] : List String),
        getNextRun ["09:00", "18:00"] 600 = some (0, timeMinutes s) ∧
        600 < timeMinutes s ∧
        ∀ u ∈ (["09:00", "18:00"] : List String),
          600 < timeMinutes u → timeMinutes s ≤ timeMinutes u) ∨
      ((∀ u ∈ (["09:00", "18:00"] : List String), timeMinutes u ≤ 600) ∧
        ∃ s ∈ (["09:00", "18:00"] : List String),
          getNextRun ["09:00", "18:00"] 600 = some (1, timeMinutes s) ∧
          ∀ u ∈ (["09:00", "18:00"] : List String), timeMinutes s ≤ timeMinutes u)) ∧
    ((∃ s ∈ (["09:00", "18:00"] : List String),
        getNextRun ["09:00", "18:00"] 1140 = some (0, timeMinutes s) ∧
        1140 < timeMinutes s ∧
        ∀ u ∈ (["09:00", "18:00"] : List String),
          1140 < timeMinutes u → timeMinutes s ≤ timeMinutes u) ∨
      ((∀ u ∈ (["09:00", "18:00"] : List String), timeMinutes u ≤ 1140) ∧
        ∃ s ∈ (["09:00", "18:00"] : List String),
          getNextRun ["09:00", "18:00"] 1140 = some (1, timeMinutes s) ∧
          ∀ u ∈ (["09:00", "18:00"] : List String), timeMinutes s ≤ timeMinutes u)) :=
  ⟨getNextRun_spec ["09:00", "18:00"] 600 (by decide) (by decide),
   getNextRun_spec ["09:00", "18:00"] 1140 (by decide) (by decide)⟩

end ReportsDay
